import Mathlib

/-!
Verification of the core pointer-to-stick translation engine of the
fps-aim-assist repository (src/core.py, configuration in src/config.py).

Modelling conventions:
* Python floats are modelled as exact rationals (`ℚ`).  All float
  expressions appearing in the code are linear with small constant
  factors (0.6, 0.4, 0.001), so rounding of the binary representation
  never changes the qualitative properties stated below.
* Python `int()` applied to a float truncates toward zero; it is
  modelled by `pyInt`.  Python `math.floor` is `⌊·⌋ : ℚ → ℤ`.
* The mutable attributes of the `Core` object are gathered in
  `CoreState`.  The virtual-gamepad handle is modelled by the boolean
  `gamepad` (attached or not); device writes are returned as an explicit
  list of committed `(x, y)` stick pairs instead of being performed.
* Each loop body (`reset_stick_loop`, `recoil_loop`) is modelled as a
  single-tick state transformer; the sleeps between ticks carry no
  state.  The monotonic clock value observed by a tick is passed in as
  an argument.
-/

namespace FpsCore

/-- Python `int()` on a float: truncation toward zero. -/
def pyInt (q : ℚ) : ℤ := if 0 ≤ q then ⌊q⌋ else ⌈q⌉

/-- Constant `Core.MAX` (src/core.py line 16). -/
def MAX : ℤ := 32767

/-- Constant `Core.MIN` (src/core.py line 17). -/
def MIN : ℤ := -32768

/-- Constant `Core.CENTER` (src/core.py line 18). -/
def CENTER : ℤ := 0

/-- Constant `Core._update_threshold` (src/core.py line 65): 1 ms minimum between
accepted pointer updates. -/
def updateThreshold : ℚ := 1/1000

/-- Structure `Config` (src/config.py): the fields read by the core engine.
`recoil_rate` and `recoil_recovery_rate` are pure sleep durations and
carry no state, so they are not modelled. -/
structure Config where
  sens : ℚ
  deadzone : ℤ
  resetDelay : ℚ
  recoilStrength : ℤ
  recoilEnabled : Bool
  maxRecoilOffset : ℤ
  deriving DecidableEq

/-- The mutable attributes of `Core` (src/core.py `__init__`). -/
structure CoreState where
  /-- Flag `self.gamepad is not None` (attachment of the virtual device). -/
  gamepad : Bool
  enabled : Bool
  recoilEnabled : Bool
  recoilActive : Bool
  recoilOffsetY : ℤ
  isMoving : Bool
  lastSentX : ℤ
  lastSentY : ℤ
  lastX : ℤ
  lastY : ℤ
  lastMoveTime : ℚ
  /-- Timestamp `self._last_update_time` used by the throttle. -/
  lastUpdateTime : ℚ
  pendingMovements : ℕ
  pendingClicks : ℕ
  pendingRecoilActivations : ℕ
  totalMovements : ℕ
  totalClicks : ℕ
  totalRecoilActivations : ℕ
  deriving DecidableEq

/-- Function `Core.clamp` (src/core.py lines 76-77):
`max(min_val, min(max_val, math.floor(val)))`. -/
def clamp (val : ℚ) (minVal maxVal : ℤ) : ℤ :=
  max minVal (min maxVal ⌊val⌋)

/-- Method `Core.update_gamepad_stick` (src/core.py lines 79-94).  Returns the
new state together with the list of stick vectors written to the
device.  Python's `==` on int/float operands compares numeric values,
hence the casts. -/
def update_gamepad_stick (s : CoreState) (stickX stickY : ℚ) :
    CoreState × List (ℤ × ℤ) :=
  if s.gamepad = false then (s, [])
  else if stickX = (s.lastSentX : ℚ) ∧ stickY = (s.lastSentY : ℚ) then (s, [])
  else
    let cx := clamp stickX MIN MAX
    let cy := clamp stickY MIN MAX
    ({ s with lastSentX := cx, lastSentY := cy }, [(cx, cy)])

/-- The per-axis deadzone-to-center collapse of `Core.on_move`
(src/core.py lines 125-126): center when `|raw| <= deadzone`, else
clamp into device range. -/
def stickAxis (cfg : Config) (raw : ℚ) : ℤ :=
  if |raw| ≤ (cfg.deadzone : ℚ) then CENTER else clamp raw MIN MAX

/-- Method `Core.on_move` (src/core.py lines 96-128).  `t` is the monotonic
clock value observed by this invocation.  With a fixed configuration the
cached `self.deadzone_squared` equals `cfg.deadzone ^ 2`. -/
def on_move (cfg : Config) (s : CoreState) (x y : ℤ) (t : ℚ) :
    CoreState × List (ℤ × ℤ) :=
  if ¬(s.enabled = true ∧ s.gamepad = true) then (s, [])
  else if t - s.lastUpdateTime < updateThreshold then (s, [])
  else
    let s1 := { s with lastUpdateTime := t }
    let dx := x - s.lastX
    let dy := y - s.lastY
    let s2 := { s1 with lastX := x, lastY := y, lastMoveTime := t }
    if dx * dx + dy * dy < cfg.deadzone ^ 2 then (s2, [])
    else
      let s3 := { s2 with pendingMovements := s2.pendingMovements + 1,
                          isMoving := true }
      let rawX : ℚ := (dx : ℚ) * cfg.sens
      let rawY : ℚ :=
        if s3.recoilActive = true ∧ s3.recoilEnabled = true then
          (-dy : ℚ) * cfg.sens + (s3.recoilOffsetY : ℚ)
        else (-dy : ℚ) * cfg.sens
      update_gamepad_stick s3 ((stickAxis cfg rawX : ℤ) : ℚ)
        ((stickAxis cfg rawY : ℤ) : ℚ)

/-- Method `Core.on_click` (src/core.py lines 130-136) for the left button. -/
def on_click (s : CoreState) (pressed : Bool) : CoreState :=
  if s.recoilEnabled = true ∧ s.enabled = true then
    let s1 := if pressed then
        { s with pendingClicks := s.pendingClicks + 1 } else s
    let s2 := { s1 with recoilActive := pressed }
    if pressed then
      { s2 with pendingRecoilActivations := s2.pendingRecoilActivations + 1 }
    else s2
  else s

/-- Method `Core._update_stats` (src/core.py lines 138-144).  When every
pending counter is zero the code skips the flush; the resulting state is
identical either way, so the guard is dropped. -/
def flushStats (s : CoreState) : CoreState :=
  { s with totalMovements := s.totalMovements + s.pendingMovements,
           totalClicks := s.totalClicks + s.pendingClicks,
           totalRecoilActivations :=
             s.totalRecoilActivations + s.pendingRecoilActivations,
           pendingMovements := 0, pendingClicks := 0,
           pendingRecoilActivations := 0 }

/-- One iteration of `Core.reset_stick_loop` (src/core.py lines
146-176), with `now` the monotonic clock value it observes. -/
def reset_tick (cfg : Config) (s0 : CoreState) (now : ℚ) :
    CoreState × List (ℤ × ℤ) :=
  let s := flushStats s0
  if s.enabled = false then
    if ¬(s.lastSentX = CENTER ∧ s.lastSentY = CENTER) then
      ({ s with lastSentX := CENTER, lastSentY := CENTER, isMoving := false },
        if s.gamepad then [(CENTER, CENTER)] else [])
    else (s, [])
  else
    if now - s.lastMoveTime > cfg.resetDelay ∧ s.isMoving = true then
      ({ s with lastSentX := CENTER, lastSentY := CENTER, isMoving := false },
        if s.gamepad then [(CENTER, CENTER)] else [])
    else (s, [])

/-- The active-branch offset update of `Core.recoil_loop` (src/core.py
lines 185-191): `target = max(offset - strength, -max_offset)`;
`offset = int(offset + (target - offset) * 0.6)`. -/
def recoil_active_tick (strength maxOffset off : ℤ) : ℤ :=
  let target := max (off - strength) (-maxOffset)
  pyInt ((off : ℚ) + ((target : ℚ) - (off : ℚ)) * (6/10))

/-- The recovery-branch offset update of `Core.recoil_loop` (src/core.py
lines 193-203): relax toward zero with rate 0.4 when `|offset| > 1000`,
else 0.6, then snap to 0 when `|offset| < 10`. -/
def recoil_recovery_tick (off : ℤ) : ℤ :=
  let speed : ℚ := if 1000 < |off| then 4/10 else 6/10
  let next := pyInt ((off : ℚ) + (0 - (off : ℚ)) * speed)
  if |next| < 10 then 0 else next

/-- One iteration of `Core.recoil_loop` (src/core.py lines 184-204).
`strength` and `maxOffset` are the values cached at loop start. -/
def recoil_tick (strength maxOffset : ℤ) (s : CoreState) : CoreState :=
  if s.recoilActive = true ∧ s.enabled = true ∧ s.recoilEnabled = true then
    { s with recoilOffsetY := recoil_active_tick strength maxOffset s.recoilOffsetY }
  else
    { s with recoilOffsetY := recoil_recovery_tick s.recoilOffsetY }

/-- Method `Core.set_enabled` (src/core.py lines 239-250). -/
def set_enabled (s0 : CoreState) (e : Bool) : CoreState × List (ℤ × ℤ) :=
  let s := { s0 with enabled := e }
  if e = false ∧ s.gamepad = true then
    ({ s with lastSentX := CENTER, lastSentY := CENTER, recoilOffsetY := 0,
              recoilActive := false, isMoving := false }, [(CENTER, CENTER)])
  else (s, [])

/-- The state produced by `Core.__init__` (src/core.py lines 12-65).
`gamepadOK` records whether `_initialize_gamepad` succeeded, `t0` the
wall-clock construction time stored in `last_move_time`. -/
def initState (cfg : Config) (gamepadOK : Bool) (t0 : ℚ) : CoreState :=
  { gamepad := gamepadOK, enabled := false,
    recoilEnabled := cfg.recoilEnabled, recoilActive := false,
    recoilOffsetY := 0, isMoving := false,
    lastSentX := CENTER, lastSentY := CENTER, lastX := 0, lastY := 0,
    lastMoveTime := t0, lastUpdateTime := 0,
    pendingMovements := 0, pendingClicks := 0,
    pendingRecoilActivations := 0,
    totalMovements := 0, totalClicks := 0, totalRecoilActivations := 0 }

/-- The state mutation of `Core.start` (src/core.py lines 206-225): the
initial pointer position and monotonic time are sampled; without an
attached device `start` returns before mutating anything. -/
def start (s : CoreState) (px py : ℤ) (t : ℚ) : CoreState :=
  if s.gamepad = true then
    { s with lastX := px, lastY := py, lastMoveTime := t }
  else s

/-- The state mutation of `Core.stop` (src/core.py lines 227-237); the
`running` flag is represented by ceasing to apply loop ticks. -/
def stop (s : CoreState) : CoreState × List (ℤ × ℤ) :=
  ({ s with enabled := false }, if s.gamepad then [(CENTER, CENTER)] else [])

/-- States reachable through the engine's operations, starting from a
freshly constructed `Core`.  The recoil loop uses the strength and
maximum-offset values cached from the configuration. -/
inductive Reachable (cfg : Config) : CoreState → Prop
  | init (g : Bool) (t0 : ℚ) : Reachable cfg (initState cfg g t0)
  | started {s} (px py : ℤ) (t : ℚ) : Reachable cfg s →
      Reachable cfg (start s px py t)
  | move {s} (x y : ℤ) (t : ℚ) : Reachable cfg s →
      Reachable cfg (on_move cfg s x y t).fst
  | click {s} (pressed : Bool) : Reachable cfg s →
      Reachable cfg (on_click s pressed)
  | watchdog {s} (now : ℚ) : Reachable cfg s →
      Reachable cfg (reset_tick cfg s now).fst
  | recoil {s} : Reachable cfg s →
      Reachable cfg (recoil_tick cfg.recoilStrength cfg.maxRecoilOffset s)
  | setEnabled {s} (e : Bool) : Reachable cfg s →
      Reachable cfg (set_enabled s e).fst
  | stopped {s} : Reachable cfg s → Reachable cfg (stop s).fst

/-! ### Arithmetic helper lemmas -/

lemma pyInt_le {q : ℚ} {n : ℤ} (h : q ≤ (n : ℚ)) : pyInt q ≤ n := by
  unfold pyInt
  split
  · exact (Int.floor_mono h).trans_eq (Int.floor_intCast n)
  · exact Int.ceil_le.mpr h

lemma le_pyInt {q : ℚ} {n : ℤ} (h : (n : ℚ) ≤ q) : n ≤ pyInt q := by
  unfold pyInt
  split
  · exact Int.le_floor.mpr h
  · exact le_of_eq_of_le (Int.ceil_intCast n).symm (Int.ceil_mono h)

lemma pyInt_intCast (n : ℤ) : pyInt (n : ℚ) = n := by
  unfold pyInt
  split <;> simp

/-- The recovery tick shrinks a positive offset while keeping it
nonnegative. -/
lemma recovery_tick_pos {off : ℤ} (h : 0 < off) :
    0 ≤ recoil_recovery_tick off ∧ recoil_recovery_tick off < off := by
  unfold recoil_recovery_tick
  dsimp only
  have hq : (0 : ℚ) < (off : ℚ) := by exact_mod_cast h
  set speed : ℚ := if 1000 < |off| then 4/10 else 6/10 with hspeed
  have hsp : speed = 4/10 ∨ speed = 6/10 := by
    rw [hspeed]; split
    · exact Or.inl rfl
    · exact Or.inr rfl
  set v : ℚ := (off : ℚ) + (0 - (off : ℚ)) * speed with hv
  have hv0 : 0 ≤ v := by
    rcases hsp with hs | hs <;> rw [hv, hs] <;> nlinarith
  have hvlt : v < (off : ℚ) := by
    rcases hsp with hs | hs <;> rw [hv, hs] <;> nlinarith
  have hfloor : pyInt v = ⌊v⌋ := by unfold pyInt; rw [if_pos hv0]
  have h1 : 0 ≤ pyInt v := le_pyInt (by exact_mod_cast hv0)
  have h2 : pyInt v < off := by
    rw [hfloor]; exact Int.floor_lt.mpr hvlt
  constructor
  · split
    · exact le_refl 0
    · exact h1
  · split
    · exact h
    · exact h2

/-- The recovery tick shrinks a negative offset while keeping it
nonpositive. -/
lemma recovery_tick_neg {off : ℤ} (h : off < 0) :
    off < recoil_recovery_tick off ∧ recoil_recovery_tick off ≤ 0 := by
  unfold recoil_recovery_tick
  dsimp only
  have hq : (off : ℚ) < 0 := by exact_mod_cast h
  set speed : ℚ := if 1000 < |off| then 4/10 else 6/10 with hspeed
  have hsp : speed = 4/10 ∨ speed = 6/10 := by
    rw [hspeed]; split
    · exact Or.inl rfl
    · exact Or.inr rfl
  set v : ℚ := (off : ℚ) + (0 - (off : ℚ)) * speed with hv
  have hv0 : v < 0 := by
    rcases hsp with hs | hs <;> rw [hv, hs] <;> nlinarith
  have hvgt : (off : ℚ) < v := by
    rcases hsp with hs | hs <;> rw [hv, hs] <;> nlinarith
  have hceil : pyInt v = ⌈v⌉ := by
    unfold pyInt; rw [if_neg (not_le.mpr hv0)]
  have h1 : pyInt v ≤ 0 := pyInt_le (by exact_mod_cast hv0.le)
  have h2 : off < pyInt v := by
    rw [hceil]; exact Int.lt_ceil.mpr hvgt
  constructor
  · split
    · exact h
    · exact h2
  · split
    · exact le_refl 0
    · exact h1

lemma recovery_tick_zero : recoil_recovery_tick 0 = 0 := by
  unfold recoil_recovery_tick pyInt
  norm_num

/-- A nonzero offset loses at least one unit of magnitude per recovery
tick. -/
lemma recovery_tick_natAbs_lt {off : ℤ} (h : off ≠ 0) :
    (recoil_recovery_tick off).natAbs < off.natAbs := by
  rcases lt_trichotomy off 0 with hn | hz | hp
  · have := recovery_tick_neg hn
    omega
  · exact absurd hz h
  · have := recovery_tick_pos hp
    omega

/-- Recovery reaches exactly zero within `|offset|` ticks. -/
lemma recovery_reaches_zero :
    ∀ (k : ℕ) (off : ℤ), off.natAbs ≤ k →
      ∃ n ≤ k, recoil_recovery_tick^[n] off = 0 := by
  intro k
  induction k with
  | zero =>
    intro off hoff
    refine ⟨0, le_refl 0, ?_⟩
    have : off = 0 := by omega
    simp [this]
  | succ m ih =>
    intro off hoff
    by_cases h0 : off = 0
    · exact ⟨0, Nat.zero_le _, by simp [h0]⟩
    · have hlt := recovery_tick_natAbs_lt h0
      obtain ⟨n, hn, hiter⟩ := ih (recoil_recovery_tick off) (by omega)
      refine ⟨n + 1, by omega, ?_⟩
      rw [Function.iterate_succ_apply]
      exact hiter

/-- The active tick never raises the offset (above the floor). -/
lemma active_tick_le {strength maxOffset off : ℤ} (hs : 0 ≤ strength)
    (hb : -maxOffset ≤ off) :
    recoil_active_tick strength maxOffset off ≤ off := by
  unfold recoil_active_tick
  set target : ℤ := max (off - strength) (-maxOffset) with htarget
  have ht : target ≤ off := by
    rw [htarget]; exact max_le (by omega) hb
  have htq : (target : ℚ) ≤ (off : ℚ) := by exact_mod_cast ht
  exact pyInt_le (by nlinarith)

/-- The active tick never drops the offset below `-maxOffset`. -/
lemma active_tick_ge {strength maxOffset off : ℤ} (hb : -maxOffset ≤ off) :
    -maxOffset ≤ recoil_active_tick strength maxOffset off := by
  unfold recoil_active_tick
  set target : ℤ := max (off - strength) (-maxOffset) with htarget
  have ht : -maxOffset ≤ target := by rw [htarget]; exact le_max_right _ _
  have htq : (-maxOffset : ℚ) ≤ (target : ℚ) := by exact_mod_cast ht
  have hbq : (-maxOffset : ℚ) ≤ (off : ℚ) := by exact_mod_cast hb
  refine le_pyInt ?_
  push_cast
  nlinarith

/-- The active tick keeps the offset nonpositive. -/
lemma active_tick_nonpos {strength maxOffset off : ℤ} (hs : 0 ≤ strength)
    (hm : 0 ≤ maxOffset) (ho : off ≤ 0) :
    recoil_active_tick strength maxOffset off ≤ 0 := by
  unfold recoil_active_tick
  set target : ℤ := max (off - strength) (-maxOffset) with htarget
  have ht : target ≤ 0 := by rw [htarget]; exact max_le (by omega) (by omega)
  have htq : (target : ℚ) ≤ 0 := by exact_mod_cast ht
  have hoq : (off : ℚ) ≤ 0 := by exact_mod_cast ho
  refine pyInt_le ?_
  push_cast
  nlinarith

/-- The value `-maxOffset` is a fixed point of the active tick. -/
lemma active_tick_floor_fixed {strength maxOffset : ℤ} (hs : 0 ≤ strength) :
    recoil_active_tick strength maxOffset (-maxOffset) = -maxOffset := by
  unfold recoil_active_tick
  have ht : max (-maxOffset - strength) (-maxOffset) = -maxOffset :=
    max_eq_right (by omega)
  rw [ht]
  dsimp only
  have : ((-maxOffset : ℤ) : ℚ) + (((-maxOffset : ℤ) : ℚ) - ((-maxOffset : ℤ) : ℚ)) * (6/10)
      = ((-maxOffset : ℤ) : ℚ) := by ring
  rw [this, pyInt_intCast]

/-! ### Preservation of the recoil offset by the non-recoil operations -/

lemma on_move_recoilOffsetY (cfg : Config) (s : CoreState) (x y : ℤ) (t : ℚ) :
    (on_move cfg s x y t).fst.recoilOffsetY = s.recoilOffsetY := by
  unfold on_move update_gamepad_stick
  dsimp only
  split_ifs <;> rfl

lemma on_click_recoilOffsetY (s : CoreState) (pressed : Bool) :
    (on_click s pressed).recoilOffsetY = s.recoilOffsetY := by
  unfold on_click
  dsimp only
  split_ifs <;> rfl

lemma reset_tick_recoilOffsetY (cfg : Config) (s : CoreState) (now : ℚ) :
    (reset_tick cfg s now).fst.recoilOffsetY = s.recoilOffsetY := by
  unfold reset_tick flushStats
  dsimp only
  split_ifs <;> rfl

lemma start_recoilOffsetY (s : CoreState) (px py : ℤ) (t : ℚ) :
    (start s px py t).recoilOffsetY = s.recoilOffsetY := by
  unfold start
  split <;> rfl

lemma stop_recoilOffsetY (s : CoreState) :
    (stop s).fst.recoilOffsetY = s.recoilOffsetY := rfl

/-! ### Claim theorems -/

def defaultCfg : Config :=
  { sens := 8000, deadzone := 3, resetDelay := 1/100, recoilStrength := 600,
    recoilEnabled := true, maxRecoilOffset := 6000 }

/-- C9: starting from recoil offset 0 with strength 600 and maximum
offset 6000, one active recoil tick computes the target
`max(0 - 600, -6000) = -600` and sets the offset to exactly
`int(0 + (-600 - 0) * 0.6) = -360`. -/
theorem c9_recoil_first_tick :
    max ((0 : ℤ) - 600) (-6000) = -600 ∧
    recoil_active_tick 600 6000 0 = -360 := by
  constructor
  · decide
  · unfold recoil_active_tick pyInt
    norm_num
    exact_mod_cast Int.ceil_intCast (α := ℚ) (-360)

/-- C4: with the trigger released, repeated recovery ticks drive any
starting offset to exactly 0 within at most `|offset|` ticks, the
magnitude never increases between consecutive ticks, and the offset
never changes sign (no overshoot past zero). -/
theorem c4_recovery_convergence (off : ℤ) :
    (∃ n, n ≤ off.natAbs ∧ recoil_recovery_tick^[n] off = 0) ∧
    |recoil_recovery_tick off| ≤ |off| ∧
    (0 ≤ off → 0 ≤ recoil_recovery_tick off) ∧
    (off ≤ 0 → recoil_recovery_tick off ≤ 0) := by
  have tri : off < 0 ∨ off = 0 ∨ 0 < off := lt_trichotomy off 0
  refine ⟨recovery_reaches_zero off.natAbs off (le_refl _), ?_, ?_, ?_⟩
  · rcases tri with h | h | h
    · have := recovery_tick_neg h
      rw [abs_of_nonpos this.2, abs_of_nonpos h.le]
      omega
    · rw [h, recovery_tick_zero]
    · have := recovery_tick_pos h
      rw [abs_of_nonneg this.1, abs_of_nonneg h.le]
      omega
  · intro hp
    rcases tri with h | h | h
    · omega
    · rw [h, recovery_tick_zero]
    · exact (recovery_tick_pos h).1
  · intro hn
    rcases tri with h | h | h
    · exact (recovery_tick_neg h).2
    · rw [h, recovery_tick_zero]
    · omega

/-- Witness for C4 at the concrete starting offset -2500 (crossing the
1000-magnitude threshold, hence exercising both recovery speeds). -/
theorem c4_recovery_convergence_witness :
    (∃ n, n ≤ ((-2500 : ℤ)).natAbs ∧
        recoil_recovery_tick^[n] (-2500 : ℤ) = 0) ∧
    |recoil_recovery_tick (-2500)| ≤ |(-2500 : ℤ)| ∧
    (0 ≤ (-2500 : ℤ) → 0 ≤ recoil_recovery_tick (-2500)) ∧
    ((-2500 : ℤ) ≤ 0 → recoil_recovery_tick (-2500) ≤ 0) :=
  c4_recovery_convergence (-2500)

/-- C3 fails as stated: with strength 1 and maximum offset 1 (both
positive, as the claim allows), the offset 0 is a fixed point of the
active tick — `target = max(0 - 1, -1) = -1` and
`int(0 + (-1 - 0) * 0.6) = int(-0.6) = 0` by truncation toward zero —
so the floor `-max_offset = -1` is never reached. -/
theorem c3_counterexample :
    (0 : ℤ) < 1 ∧ (0 : ℤ) < 1 ∧
    recoil_active_tick 1 1 0 = 0 ∧
    ¬ ∃ n : ℕ, (recoil_active_tick 1 1)^[n] 0 = -1 := by
  have h0 : recoil_active_tick 1 1 0 = 0 := by
    unfold recoil_active_tick pyInt
    norm_num
  refine ⟨by decide, by decide, h0, ?_⟩
  rintro ⟨n, hn⟩
  have key : ∀ m : ℕ, (recoil_active_tick 1 1)^[m] (0 : ℤ) = 0 := by
    intro m
    induction m with
    | zero => rfl
    | succ k ih => rw [Function.iterate_succ_apply', ih, h0]
  rw [key n] at hn
  exact absurd hn (by decide)

/-- C3 amended: while the trigger is held with recoil enabled, for every
strength > 0 and max_offset > 0 the offset samples are non-increasing
and never drop below `-max_offset`, and `-max_offset` is a fixed point
(once exactly at the floor the offset stays there); the floor need not
ever be reached, because the integer truncation toward zero can stall
the sequence one unit above it. -/
theorem c3_recoil_monotone (strength maxOffset off : ℤ)
    (hs : 0 < strength) (hm : 0 < maxOffset) (hb : -maxOffset ≤ off) :
    recoil_active_tick strength maxOffset off ≤ off ∧
    -maxOffset ≤ recoil_active_tick strength maxOffset off ∧
    recoil_active_tick strength maxOffset (-maxOffset) = -maxOffset :=
  ⟨active_tick_le hs.le hb, active_tick_ge hb, active_tick_floor_fixed hs.le⟩

/-- Witness for C3 (amended) at strength 600, maximum offset 6000,
offset 0 — the configuration defaults. -/
theorem c3_recoil_monotone_witness :
    (0 : ℤ) < 600 ∧ (0 : ℤ) < 6000 ∧ -(6000 : ℤ) ≤ 0 ∧
    (recoil_active_tick 600 6000 0 ≤ 0 ∧
     -(6000 : ℤ) ≤ recoil_active_tick 600 6000 0 ∧
     recoil_active_tick 600 6000 (-6000) = -6000) :=
  ⟨by decide, by decide, by decide,
    c3_recoil_monotone 600 6000 0 (by decide) (by decide) (by decide)⟩

/-- C10: in every reachable engine state (with the cached recoil
strength and maximum offset nonnegative, as the configuration and its
GUI ranges guarantee), the recoil offset lies in
`[-max_recoil_offset, 0]`. -/
theorem c10_recoil_offset_invariant (cfg : Config) (s : CoreState)
    (hs : 0 ≤ cfg.recoilStrength) (hm : 0 ≤ cfg.maxRecoilOffset)
    (hr : Reachable cfg s) :
    -cfg.maxRecoilOffset ≤ s.recoilOffsetY ∧ s.recoilOffsetY ≤ 0 := by
  induction hr with
  | init g t0 => constructor <;> simp [initState] <;> omega
  | started px py t _ ih => rw [start_recoilOffsetY]; exact ih
  | move x y t _ ih => rw [on_move_recoilOffsetY]; exact ih
  | click pressed _ ih => rw [on_click_recoilOffsetY]; exact ih
  | watchdog now _ ih => rw [reset_tick_recoilOffsetY]; exact ih
  | recoil _ ih =>
    simp only [recoil_tick]
    split_ifs
    · exact ⟨active_tick_ge ih.1, active_tick_nonpos hs hm ih.2⟩
    · dsimp only
      rcases lt_or_eq_of_le ih.2 with h | h
      · have hrec := recovery_tick_neg h
        have h1 := ih.1
        exact ⟨by omega, hrec.2⟩
      · rw [h, recovery_tick_zero]
        exact ⟨by omega, le_refl 0⟩
  | setEnabled e _ ih =>
    simp only [set_enabled]
    split_ifs
    · refine ⟨?_, ?_⟩ <;> simp <;> try omega
    · simpa using ih
  | stopped _ ih => rw [stop_recoilOffsetY]; exact ih

/-- Witness for C10: the freshly constructed engine with the default
configuration is reachable and satisfies the invariant. -/
theorem c10_recoil_offset_invariant_witness :
    -defaultCfg.maxRecoilOffset ≤ (initState defaultCfg true 0).recoilOffsetY ∧
    (initState defaultCfg true 0).recoilOffsetY ≤ 0 :=
  c10_recoil_offset_invariant defaultCfg (initState defaultCfg true 0)
    (by decide) (by decide) (Reachable.init true 0)

/-- Configuration exhibiting the C1 failure: fractional sensitivity 1/2
and deadzone 0 (the GUI's deadzone slider starts at 0). -/
def c1Cfg : Config :=
  { sens := 1/2, deadzone := 0, resetDelay := 1/100, recoilStrength := 600,
    recoilEnabled := false, maxRecoilOffset := 6000 }

/-- An engine state about to accept a move event, with a non-centered
last-committed vector so the dedupe step does not swallow the write. -/
def c1State : CoreState :=
  { gamepad := true, enabled := true, recoilEnabled := false,
    recoilActive := false, recoilOffsetY := 0, isMoving := false,
    lastSentX := 5, lastSentY := 5, lastX := 0, lastY := 0,
    lastMoveTime := 0, lastUpdateTime := 0,
    pendingMovements := 0, pendingClicks := 0, pendingRecoilActivations := 0,
    totalMovements := 0, totalClicks := 0, totalRecoilActivations := 0 }

/-- C1 fails as stated: with sensitivity 1/2 and deadzone 0 the accepted
delta (dx, dy) = (1, 0) gives `raw_x = 1/2` with `|raw_x| > deadzone`,
yet the committed stick vector has `stick_x = 0`, because
`math.floor(1/2) = 0`.  The claimed equivalence therefore fails in the
"stick_x = 0 implies |dx*sens| <= deadzone" direction when deadzone = 0
and the sensitivity is fractional. -/
theorem c1_counterexample :
    (on_move c1Cfg c1State 1 0 1).snd = [(0, 0)] ∧
    ¬ |(((1 : ℤ) - c1State.lastX : ℤ) : ℚ) * c1Cfg.sens| ≤ (c1Cfg.deadzone : ℚ) := by
  constructor
  · norm_num [on_move, update_gamepad_stick, stickAxis, clamp,
      updateThreshold, CENTER, MIN, MAX, c1Cfg, c1State]
  · norm_num [c1Cfg, c1State]

/-- C1 amended: for every *positive* integer deadzone (any value the
claim allows except 0), the committed axis value produced by the
per-axis collapse of `on_move` is 0 (center) iff the absolute scaled
value — `dx * sensitivity` for x, `-dy * sensitivity` plus any recoil
offset for y — is at most the deadzone.  For deadzone = 0 the "only if"
direction is false (see the counterexample). -/
theorem c1_stick_zero_iff (cfg : Config) (raw : ℚ) (h : 1 ≤ cfg.deadzone) :
    stickAxis cfg raw = CENTER ↔ |raw| ≤ (cfg.deadzone : ℚ) := by
  unfold stickAxis
  split_ifs with hd
  · exact iff_of_true rfl hd
  · refine iff_of_false ?_ hd
    have hdq : (1 : ℚ) ≤ (cfg.deadzone : ℚ) := by exact_mod_cast h
    rw [not_le] at hd
    rcases abs_cases raw with ⟨he, hsgn⟩ | ⟨he, hsgn⟩
    · have hr1 : (1 : ℚ) ≤ raw := by rw [he] at hd; linarith
      have hfl : 1 ≤ ⌊raw⌋ := Int.le_floor.mpr (by exact_mod_cast hr1)
      simp only [clamp, CENTER, MIN, MAX]
      omega
    · have hfl : ⌊raw⌋ < 0 := Int.floor_lt.mpr (by exact_mod_cast hsgn)
      simp only [clamp, CENTER, MIN, MAX]
      omega

/-- Witness for C1 (amended) at the default deadzone 3 and the scaled
value 5/2, which lies inside the post-scaling deadzone. -/
theorem c1_stick_zero_iff_witness :
    1 ≤ defaultCfg.deadzone ∧
    (stickAxis defaultCfg (5/2) = CENTER ↔
      |(5/2 : ℚ)| ≤ (defaultCfg.deadzone : ℚ)) :=
  ⟨by decide, c1_stick_zero_iff defaultCfg (5/2) (by decide)⟩

/-- A state whose throttle timestamp is 0, about to receive an
in-deadzone move event at monotonic time 1. -/
def c2State : CoreState :=
  { gamepad := true, enabled := true, recoilEnabled := true,
    recoilActive := false, recoilOffsetY := 0, isMoving := false,
    lastSentX := 0, lastSentY := 0, lastX := 0, lastY := 0,
    lastMoveTime := 0, lastUpdateTime := 0,
    pendingMovements := 0, pendingClicks := 0, pendingRecoilActivations := 0,
    totalMovements := 0, totalClicks := 0, totalRecoilActivations := 0 }

/-- C2 fails in one detail: on a deadzone-filtered move the code also
updates the throttle timestamp `_last_update_time` (src/core.py line
103), so it is not true that *only* last_x, last_y and last_move_time
are updated.  The concrete event below passes the throttle, fails the
squared-distance deadzone check, and changes `_last_update_time` from 0
to 1. -/
theorem c2_counterexample :
    c2State.enabled = true ∧ c2State.gamepad = true ∧
    ¬ ((1 : ℚ) - c2State.lastUpdateTime < updateThreshold) ∧
    ((1 : ℤ) - c2State.lastX) * ((1 : ℤ) - c2State.lastX) +
      ((0 : ℤ) - c2State.lastY) * ((0 : ℤ) - c2State.lastY) <
        defaultCfg.deadzone ^ 2 ∧
    (on_move defaultCfg c2State 1 0 1).fst.lastUpdateTime ≠
      c2State.lastUpdateTime := by
  refine ⟨rfl, rfl, by norm_num [c2State, updateThreshold],
    by norm_num [c2State, defaultCfg], ?_⟩
  norm_num [on_move, c2State, defaultCfg, updateThreshold]

/-- C2 amended: for every move event that passes the throttle and whose
delta satisfies `dx² + dy² < deadzone²`, no stick write occurs and the
resulting state differs from the previous one exactly in last_x, last_y,
last_move_time *and the throttle timestamp `_last_update_time`* — in
particular the is-moving flag, the pending movement counter and the
last-committed stick vector are unchanged. -/
theorem c2_deadzone_drop (cfg : Config) (s : CoreState) (x y : ℤ) (t : ℚ)
    (h1 : s.enabled = true) (h2 : s.gamepad = true)
    (h3 : ¬ (t - s.lastUpdateTime < updateThreshold))
    (h4 : (x - s.lastX) * (x - s.lastX) + (y - s.lastY) * (y - s.lastY) <
      cfg.deadzone ^ 2) :
    on_move cfg s x y t =
      ({ s with lastUpdateTime := t, lastX := x, lastY := y,
                lastMoveTime := t }, []) := by
  unfold on_move
  rw [if_neg (by simp [h1, h2]), if_neg h3]
  dsimp only
  rw [if_pos h4]

/-- Witness for C2 (amended) at the same concrete in-deadzone event. -/
theorem c2_deadzone_drop_witness :
    on_move defaultCfg c2State 1 0 1 =
      ({ c2State with lastUpdateTime := 1, lastX := 1, lastY := 0,
                      lastMoveTime := 1 }, []) :=
  c2_deadzone_drop defaultCfg c2State 1 0 1 rfl rfl
    (by norm_num [c2State, updateThreshold])
    (by norm_num [c2State, defaultCfg])

/-- C5: with the device attached (the only situation in which the engine
can have started), `enable(false)` centers the last-committed stick
vector, zeroes the recoil offset, clears the recoil-active flag and
clears the is-moving flag; and calling it twice yields exactly the state
of calling it once. -/
theorem c5_disable_reset_idempotent (s : CoreState) (h : s.gamepad = true) :
    (set_enabled s false).fst.lastSentX = CENTER ∧
    (set_enabled s false).fst.lastSentY = CENTER ∧
    (set_enabled s false).fst.recoilOffsetY = 0 ∧
    (set_enabled s false).fst.recoilActive = false ∧
    (set_enabled s false).fst.isMoving = false ∧
    (set_enabled (set_enabled s false).fst false).fst =
      (set_enabled s false).fst := by
  simp [set_enabled, h, CENTER]

/-- A fully "dirty" engine state with the device attached. -/
def c5State : CoreState :=
  { gamepad := true, enabled := true, recoilEnabled := true,
    recoilActive := true, recoilOffsetY := -500, isMoving := true,
    lastSentX := 100, lastSentY := -200, lastX := 3, lastY := 4,
    lastMoveTime := 5, lastUpdateTime := 6,
    pendingMovements := 7, pendingClicks := 8, pendingRecoilActivations := 9,
    totalMovements := 10, totalClicks := 11, totalRecoilActivations := 12 }

/-- Witness for C5 at a concrete dirty state. -/
theorem c5_disable_reset_idempotent_witness :
    (set_enabled c5State false).fst.lastSentX = CENTER ∧
    (set_enabled c5State false).fst.lastSentY = CENTER ∧
    (set_enabled c5State false).fst.recoilOffsetY = 0 ∧
    (set_enabled c5State false).fst.recoilActive = false ∧
    (set_enabled c5State false).fst.isMoving = false ∧
    (set_enabled (set_enabled c5State false).fst false).fst =
      (set_enabled c5State false).fst :=
  c5_disable_reset_idempotent c5State rfl

/-- C6: with the device attached, committing a stick pair equal to the
last committed vector is a complete no-op; otherwise both axes are
clamped into [-32768, 32767] with `math.floor` (floor toward negative
infinity) applied to any fractional value, the clamped pair is written
to the device, and the last-committed fields are updated to exactly the
clamped values together with that write. -/
theorem c6_commit_contract (s : CoreState) (stickX stickY : ℚ)
    (h : s.gamepad = true) :
    ((stickX = (s.lastSentX : ℚ) ∧ stickY = (s.lastSentY : ℚ)) →
      update_gamepad_stick s stickX stickY = (s, [])) ∧
    (¬ (stickX = (s.lastSentX : ℚ) ∧ stickY = (s.lastSentY : ℚ)) →
      update_gamepad_stick s stickX stickY =
        ({ s with lastSentX := clamp stickX MIN MAX,
                  lastSentY := clamp stickY MIN MAX },
          [(clamp stickX MIN MAX, clamp stickY MIN MAX)]) ∧
      clamp stickX MIN MAX = max MIN (min MAX ⌊stickX⌋) ∧
      clamp stickY MIN MAX = max MIN (min MAX ⌊stickY⌋) ∧
      MIN ≤ clamp stickX MIN MAX ∧ clamp stickX MIN MAX ≤ MAX ∧
      MIN ≤ clamp stickY MIN MAX ∧ clamp stickY MIN MAX ≤ MAX) := by
  constructor
  · intro hdup
    unfold update_gamepad_stick
    rw [if_neg (by simp [h]), if_pos hdup]
  · intro hdup
    unfold update_gamepad_stick
    rw [if_neg (by simp [h]), if_neg hdup]
    refine ⟨rfl, rfl, rfl, ?_, ?_, ?_, ?_⟩
    · exact le_max_left _ _
    · exact max_le (by decide) (min_le_left _ _)
    · exact le_max_left _ _
    · exact max_le (by decide) (min_le_left _ _)

/-- A state with last-committed vector (5, 5) and the device attached. -/
def c6State : CoreState :=
  { gamepad := true, enabled := true, recoilEnabled := true,
    recoilActive := false, recoilOffsetY := 0, isMoving := true,
    lastSentX := 5, lastSentY := 5, lastX := 0, lastY := 0,
    lastMoveTime := 0, lastUpdateTime := 0,
    pendingMovements := 0, pendingClicks := 0, pendingRecoilActivations := 0,
    totalMovements := 0, totalClicks := 0, totalRecoilActivations := 0 }

/-- Witness for C6: committing the fractional out-of-range pair
(40000.5, 0) over last vector (5, 5) clamps, writes, and updates. -/
theorem c6_commit_contract_witness :
    update_gamepad_stick c6State (40000 + 1/2) 0 =
      ({ c6State with lastSentX := clamp (40000 + 1/2) MIN MAX,
                      lastSentY := clamp 0 MIN MAX },
        [(clamp (40000 + 1/2) MIN MAX, clamp 0 MIN MAX)]) ∧
    clamp (40000 + 1/2) MIN MAX = max MIN (min MAX ⌊(40000 + 1/2 : ℚ)⌋) ∧
    clamp (0 : ℚ) MIN MAX = max MIN (min MAX ⌊(0 : ℚ)⌋) ∧
    MIN ≤ clamp (40000 + 1/2) MIN MAX ∧ clamp (40000 + 1/2) MIN MAX ≤ MAX ∧
    MIN ≤ clamp (0 : ℚ) MIN MAX ∧ clamp (0 : ℚ) MIN MAX ≤ MAX :=
  (c6_commit_contract c6State (40000 + 1/2) 0 rfl).2 (by norm_num [c6State])

/-- C7: a move event dropped by the 1 ms minimum-interval throttle
mutates no engine state and emits no device write; and because pointer
coordinates are absolute, the delta that any later accepted event
computes from the (unchanged) state telescopes through the dropped
event's position: it equals the dropped event's delta plus the motion
after it, so total pointer displacement is preserved. -/
theorem c7_throttle_drop (cfg : Config) (s : CoreState) (x y : ℤ) (t : ℚ)
    (h1 : s.enabled = true) (h2 : s.gamepad = true)
    (h3 : t - s.lastUpdateTime < updateThreshold) :
    on_move cfg s x y t = (s, []) ∧
    (∀ x2 : ℤ, x2 - (on_move cfg s x y t).fst.lastX =
      (x - s.lastX) + (x2 - x)) ∧
    (∀ y2 : ℤ, y2 - (on_move cfg s x y t).fst.lastY =
      (y - s.lastY) + (y2 - y)) := by
  have hmain : on_move cfg s x y t = (s, []) := by
    unfold on_move
    rw [if_neg (by simp [h1, h2]), if_pos h3]
  refine ⟨hmain, ?_, ?_⟩ <;> intro a <;> rw [hmain] <;> dsimp only <;> ring

/-- A state whose throttle timestamp is 0, receiving an event 0.5 ms
later. -/
def c7State : CoreState :=
  { gamepad := true, enabled := true, recoilEnabled := true,
    recoilActive := false, recoilOffsetY := 0, isMoving := true,
    lastSentX := 9, lastSentY := 9, lastX := 2, lastY := 3,
    lastMoveTime := 0, lastUpdateTime := 0,
    pendingMovements := 0, pendingClicks := 0, pendingRecoilActivations := 0,
    totalMovements := 0, totalClicks := 0, totalRecoilActivations := 0 }

/-- Witness for C7 at a concrete throttled event (0.5 ms elapsed). -/
theorem c7_throttle_drop_witness :
    on_move defaultCfg c7State 50 60 (1/2000) = (c7State, []) ∧
    (∀ x2 : ℤ, x2 - (on_move defaultCfg c7State 50 60 (1/2000)).fst.lastX =
      (50 - c7State.lastX) + (x2 - 50)) ∧
    (∀ y2 : ℤ, y2 - (on_move defaultCfg c7State 50 60 (1/2000)).fst.lastY =
      (60 - c7State.lastY) + (y2 - 60)) :=
  c7_throttle_drop defaultCfg c7State 50 60 (1/2000) rfl rfl
    (by norm_num [c7State, updateThreshold])

/-- C8: while enabled with the device attached, if no accepted pointer
motion happened for longer than reset_delay and the is-moving flag is
set, the next watchdog tick writes the center vector to the device,
centers the last-committed fields and clears is-moving; and absent new
motion every subsequent watchdog tick performs no further stick
write. -/
theorem c8_idle_recenters_once (cfg : Config) (s : CoreState) (now : ℚ)
    (h1 : s.enabled = true) (h2 : s.gamepad = true) (h3 : s.isMoving = true)
    (h4 : now - s.lastMoveTime > cfg.resetDelay) :
    (reset_tick cfg s now).snd = [(CENTER, CENTER)] ∧
    (reset_tick cfg s now).fst.isMoving = false ∧
    (reset_tick cfg s now).fst.lastSentX = CENTER ∧
    (reset_tick cfg s now).fst.lastSentY = CENTER ∧
    ∀ now2 : ℚ, (reset_tick cfg (reset_tick cfg s now).fst now2).snd = [] := by
  unfold reset_tick flushStats
  dsimp only
  rw [if_neg (by simp [h1]), if_pos (⟨h4, h3⟩ :
    now - s.lastMoveTime > cfg.resetDelay ∧ s.isMoving = true), if_pos h2]
  refine ⟨rfl, rfl, rfl, rfl, ?_⟩
  intro now2
  dsimp only
  rw [if_neg (by simp [h1]), if_neg (by simp)]

/-- A state that has been idle since time 0 with is-moving set. -/
def c8State : CoreState :=
  { gamepad := true, enabled := true, recoilEnabled := true,
    recoilActive := false, recoilOffsetY := -100, isMoving := true,
    lastSentX := 900, lastSentY := -900, lastX := 2, lastY := 3,
    lastMoveTime := 0, lastUpdateTime := 0,
    pendingMovements := 1, pendingClicks := 0, pendingRecoilActivations := 0,
    totalMovements := 0, totalClicks := 0, totalRecoilActivations := 0 }

/-- Witness for C8 at a concrete idle state one second after the last
accepted motion (reset delay 1/100). -/
theorem c8_idle_recenters_once_witness :
    (reset_tick defaultCfg c8State 1).snd = [(CENTER, CENTER)] ∧
    (reset_tick defaultCfg c8State 1).fst.isMoving = false ∧
    (reset_tick defaultCfg c8State 1).fst.lastSentX = CENTER ∧
    (reset_tick defaultCfg c8State 1).fst.lastSentY = CENTER ∧
    ∀ now2 : ℚ,
      (reset_tick defaultCfg (reset_tick defaultCfg c8State 1).fst now2).snd
        = [] :=
  c8_idle_recenters_once defaultCfg c8State 1 rfl rfl rfl
    (by norm_num [c8State, defaultCfg])

end FpsCore
